import Mathlib

/-!
Shallow embedding of the Document View and Highlight Synchronization Engine
of the PDF-viewer repository.

The embedded code lives in two source files, each holding a variant of the
`PdfPane` React component:
  * `src/src/components/PdfPane.jsx` (variant 1, no error UI), and
  * `src/src/components/Sidebar.jsx` (the `Sidebar` component followed by
    variant 2 of `PdfPane`, with `error`/`loading` state and an error box).
The synchronization core (`computeRectsFromChunk`, `scheduleRecompute`, the
`requestAnimationFrame` callback, the load effect with its `cancelled` flag)
has the same body in both variants, so it is embedded once.

Geometry (`getBoundingClientRect`, `offsetTop`, `clientHeight`) is modelled
over `ℚ`; JavaScript `null` handles become `Option`; a JavaScript `TypeError`
thrown by dereferencing `null` becomes `Except.error`.
-/

namespace PdfViewer

/-- Result of `getBoundingClientRect()` on a DOM element. -/
structure DomRect where
  left : ℚ
  top : ℚ
  width : ℚ
  height : ℚ
deriving DecidableEq, Repr

/-- Live geometry of one page wrapper element (`view.el` in the source):
its bounding client rect plus the `offsetTop` and `clientHeight` properties
read by the centering-scroll code. -/
structure PageEl where
  rect : DomRect
  offsetTop : ℚ
  clientHeight : ℚ
deriving DecidableEq, Repr

/-- One entry of the Page View Registry: `views.push({ pageNumber: i, el: wrapper })`. -/
structure PageView where
  pageNumber : Nat
  el : PageEl
deriving DecidableEq, Repr

/-- Live geometry of the scrollable container (`containerRef.current`). -/
structure Container where
  rect : DomRect
  clientHeight : ℚ
deriving DecidableEq, Repr

/-- A chunk as consumed by `computeRectsFromChunk`: the source reads
`chunk.page`, `chunk.bbox_normalized` (an array `[nx0, ny0, nx1, ny1]`)
and `chunk.chunk_id`. -/
structure Chunk where
  chunk_id : String
  page : Nat
  bbox_normalized : ℚ × ℚ × ℚ × ℚ
deriving DecidableEq, Repr

/-- A published highlight rectangle
`{ id, left, top, width, height, page }`. -/
structure PixelRect where
  id : String
  left : ℚ
  top : ℚ
  width : ℚ
  height : ℚ
  page : Nat
deriving DecidableEq, Repr

/-- Embedding of `computeRectsFromChunk` (PdfPane.jsx lines 62-75; the same
body appears in the Sidebar.jsx variant, lines 123-150):

```js
if (!chunk || pageViews.length === 0) return [];
const view = pageViews.find(v => v.pageNumber === chunk.page);
if (!view) return [];
const containerRect = containerRef.current.getBoundingClientRect();
const pageRect = view.el.getBoundingClientRect();
const [nx0, ny0, nx1, ny1] = chunk.bbox_normalized;
...
return [{ id: chunk.chunk_id, left, top, width, height, page: chunk.page }];
```

The container argument is an `Option` because `containerRef.current` can be
`null`; the source dereferences it without a guard, which in JavaScript
throws a `TypeError`, modelled here as `Except.error`. -/
def computeRectsFromChunk (chunk : Option Chunk) (pageViews : List PageView)
    (container : Option Container) : Except String (List PixelRect) :=
  match chunk with
  | none => .ok []
  | some c =>
    if pageViews.length = 0 then .ok []
    else
      match pageViews.find? (fun v => v.pageNumber == c.page) with
      | none => .ok []
      | some view =>
        match container with
        | none => .error "TypeError: containerRef.current is null"
        | some cont =>
          let containerRect := cont.rect
          let pageRect := view.el.rect
          let nx0 := c.bbox_normalized.1
          let ny0 := c.bbox_normalized.2.1
          let nx1 := c.bbox_normalized.2.2.1
          let ny1 := c.bbox_normalized.2.2.2
          .ok [{ id := c.chunk_id
                 left := pageRect.left - containerRect.left + nx0 * pageRect.width
                 top := pageRect.top - containerRect.top + ny0 * pageRect.height
                 width := max 2 ((nx1 - nx0) * pageRect.width)
                 height := max 2 ((ny1 - ny0) * pageRect.height)
                 page := c.page }]

/-- Target offset of the centering scroll issued on settle
(`Math.max(0, pageTop - container.clientHeight / 2 + pageEl.clientHeight / 2)`). -/
def centerScroll (pageTop containerClientHeight pageClientHeight : ℚ) : ℚ :=
  max 0 (pageTop - containerClientHeight / 2 + pageClientHeight / 2)

/-- State of the Highlight Synchronizer inside one `PdfPane` instance.
`latestSelected` is the mutable ref `latestSelected.current`; `rafPending` is
`rafPending.current`; `highlights` is the React state published with
`setHighlights`. The remaining fields are observation logs of the run:
`publishLog` records every value passed to `setHighlights`, `mapperCalls`
counts invocations of `computeRectsFromChunk` by the frame callback,
`scrollLog` records every `container.scrollTo` target offset, and `exnLog`
records exceptions escaping the frame callback. -/
structure SyncState where
  latestSelected : Option Chunk
  pageViews : List PageView
  container : Option Container
  rafPending : Bool
  highlights : List PixelRect
  publishLog : List (List PixelRect)
  mapperCalls : Nat
  scrollLog : List ℚ
  exnLog : List String
deriving DecidableEq, Repr

/-- Embedding of `scheduleRecompute` up to the frame boundary
(PdfPane.jsx lines 77-79): `if (rafPending.current) return;
rafPending.current = true; requestAnimationFrame(...)`. Since the flag is
cleared only inside the queued callback, `rafPending = true` is exactly
"one frame callback queued". -/
def scheduleRecompute (s : SyncState) : SyncState :=
  if s.rafPending then s else { s with rafPending := true }

/-- Embedding of the callback passed to `requestAnimationFrame`
(PdfPane.jsx lines 80-100). It clears the flag, reads the selection from the
mutable holder at execution time, publishes `[]` for a null selection,
otherwise invokes the Coordinate Mapper, publishes its result, and on a
non-empty result issues the centering scroll. A `TypeError` thrown by the
mapper escapes the callback before `setHighlights` runs. -/
def rafCallback (s : SyncState) : SyncState :=
  let s0 := { s with rafPending := false }
  match s0.latestSelected with
  | none => { s0 with highlights := [], publishLog := s0.publishLog ++ [[]] }
  | some c =>
    let res := computeRectsFromChunk (some c) s0.pageViews s0.container
    let s1 := { s0 with mapperCalls := s0.mapperCalls + 1 }
    match res with
    | .error e => { s1 with exnLog := s1.exnLog ++ [e] }
    | .ok rects =>
      let s2 := { s1 with highlights := rects, publishLog := s1.publishLog ++ [rects] }
      match rects with
      | [] => s2
      | r :: _ =>
        match s2.pageViews.find? (fun pv => pv.pageNumber == r.page), s2.container with
        | some v, some cont =>
          { s2 with scrollLog := s2.scrollLog ++
              [centerScroll v.el.offsetTop cont.clientHeight v.el.clientHeight] }
        | some _, none => s2
        | none, _ => s2

/-- Display-frame boundary: `requestAnimationFrame` runs the queued callback,
if any. -/
def runFrame (s : SyncState) : SyncState :=
  if s.rafPending then rafCallback s else s

/-- Triggering events delivered by the event loop: a selection change
(the `[selectedChunk]` effect), a container `scroll`, a window `resize`,
a `ResizeObserver` notification, and a `MutationObserver` notification
(whose 50 ms settle delay also ends in the same `scheduleRecompute`). -/
inductive Event where
  | select (c : Option Chunk)
  | scroll
  | resize
  | layoutResize
  | mutation
deriving DecidableEq, Repr

/-- Embedding of the event handlers (PdfPane.jsx lines 103-118): the
selection effect writes the mutable holder synchronously and schedules
unconditionally; the scroll/resize/observer handlers return early when no
chunk is selected and otherwise schedule. -/
def applyEvent (e : Event) (s : SyncState) : SyncState :=
  match e with
  | .select c => scheduleRecompute { s with latestSelected := c }
  | .scroll | .resize | .layoutResize | .mutation =>
    match s.latestSelected with
    | none => s
    | some _ => scheduleRecompute s

/-- Delivery of a sequence of events within one frame. -/
def applyEvents (evs : List Event) (s : SyncState) : SyncState :=
  evs.foldl (fun t e => applyEvent e t) s

/-- One step of an execution: an event delivery or a frame boundary. -/
inductive Step where
  | ev (e : Event)
  | frame
deriving DecidableEq, Repr

def applyStep (st : Step) (s : SyncState) : SyncState :=
  match st with
  | .ev e => applyEvent e s
  | .frame => runFrame s

/-- An execution: a sequence of steps from a starting state. -/
def run (steps : List Step) (s : SyncState) : SyncState :=
  steps.foldl (fun t st => applyStep st t) s

/-- Freshly mounted pane: empty logs, no pending frame. -/
def initState (pvs : List PageView) (cont : Option Container)
    (sel : Option Chunk) : SyncState :=
  { latestSelected := sel, pageViews := pvs, container := cont,
    rafPending := false, highlights := [], publishLog := [],
    mapperCalls := 0, scrollLog := [], exnLog := [] }

/-- Embedding of the load-effect continuation from the resolution of the
`getDocument` promise onward (PdfPane.jsx lines 25-53; Sidebar.jsx lines
74-109). `cancelledAtResolve` is the value of the effect's `cancelled` flag
at the moment the promise resolves; it is tested by the single
`if (cancelled) return;`. `cancelledDuringRender` is the flag's value after
the page loop's later await points (`doc.getPage(i)`,
`page.render(...).promise`); the source never re-reads the flag there, so
this parameter is ignored, exactly as in the code: a load superseded
mid-render still rebuilds the registry (`setPageViews(views)`) and fires
`onReady`. The second component is the `onReady` payload (`none` when the
callback is not fired). -/
def onDocResolved (cancelledAtResolve : Bool) (cancelledDuringRender : Bool)
    (views : List PageView) (numPages : Nat) (s : SyncState) :
    SyncState × Option Nat :=
  if cancelledAtResolve then (s, none)
  else ({ s with pageViews := views }, some numPages)

/-- React state of the PdfPane.jsx variant (variant 1): no `error` or
`loading` state exists. -/
structure PaneState1 where
  pageViews : List PageView
  highlights : List PixelRect
deriving DecidableEq, Repr

/-- React state of the Sidebar.jsx PdfPane variant (variant 2). -/
structure PaneState2 where
  pageViews : List PageView
  highlights : List PixelRect
  error : Option String
  loading : Bool
deriving DecidableEq, Repr

/-- Embedding of variant 1's load `catch` (PdfPane.jsx lines 54-57):
`console.error("PdfPane load error", err); // show nothing`. No state is
touched and no new load is issued; the Boolean records whether a retry
load was started. -/
def handleLoadErrorPdfPane (err : String) (s : PaneState1) : PaneState1 × Bool :=
  (s, false)

/-- Embedding of variant 2's load failure paths (Sidebar.jsx lines 61-67 and
110-114): `setError(msg); setLoading(false);` with no retry. -/
def handleLoadErrorSidebar (err : String) (s : PaneState2) : PaneState2 × Bool :=
  ({ s with error := some err, loading := false }, false)

/-- Embedding of variant 2's failure continuations as they run for a
superseded load: the effect's `cancelled` flag is in scope, but neither the
HEAD-check failure path (Sidebar.jsx lines 61-67) nor the catch (lines
110-114) reads it, so the parameter is ignored, exactly as in the code, and
the body is `handleLoadErrorSidebar` unchanged. -/
def onLoadFailed (cancelled : Bool) (err : String) (s : PaneState2) :
    PaneState2 × Bool :=
  handleLoadErrorSidebar err s

/-- Error indicator rendered by variant 1's JSX (PdfPane.jsx lines 127-154):
the markup contains no error element, so no failure reason is ever shown. -/
def renderErrorIndicatorPdfPane (s : PaneState1) : Option String :=
  none

/-- Error indicator rendered by variant 2's JSX (Sidebar.jsx lines 232-250):
`{error && (<div ...><strong>PDF error:</strong><div>{error}</div>...)}`,
a visible box carrying the reason exactly when `error` is non-null. -/
def renderErrorIndicatorSidebar (s : PaneState2) : Option String :=
  s.error

/-! Concrete scenario data used by witnesses and counterexamples:
a registry for pages 1..3, page 2 rendered at 600 by 800 pixels, and a
viewport whose bounding-box origin coincides with page 2's top-left corner
(the scenario of spec section 8). -/

def page1El : PageEl := ⟨⟨0, -812, 600, 800⟩, 12, 800⟩

def page2El : PageEl := ⟨⟨0, 0, 600, 800⟩, 824, 800⟩

def page3El : PageEl := ⟨⟨0, 812, 600, 780⟩, 1636, 780⟩

def registry123 : List PageView := [⟨1, page1El⟩, ⟨2, page2El⟩, ⟨3, page3El⟩]

def contA : Container := ⟨⟨0, 0, 620, 560⟩, 560⟩

def chunkC1 : Chunk := ⟨"c1", 2, (0.1, 0.2, 0.5, 0.6)⟩

/-- Chunk referencing page 5, absent from `registry123`. -/
def chunkPage5 : Chunk := ⟨"c9", 5, (0.3, 0.3, 0.3, 0.3)⟩

/-- Synchronizer state with a frame callback already queued and `chunkC1`
selected. -/
def pendingState : SyncState :=
  { latestSelected := some chunkC1, pageViews := registry123,
    container := some contA, rafPending := true, highlights := [],
    publishLog := [], mapperCalls := 0, scrollLog := [], exnLog := [] }

/-! Helper lemmas about the embedding. -/

/-- The Coordinate Mapper never returns more than one rectangle. -/
lemma computeRects_ok_length (ch : Option Chunk) (pvs : List PageView)
    (cont : Option Container) (rects : List PixelRect)
    (h : computeRectsFromChunk ch pvs cont = .ok rects) : rects.length ≤ 1 := by
  unfold computeRectsFromChunk at h
  repeat' split at h
  all_goals cases h
  all_goals simp

/-- Event handlers never touch the registry, the container handle, the
mapper-call counter, or any log; they only write the selection holder and
the `rafPending` flag, and never clear the flag. -/
lemma applyEvent_preserves (e : Event) (s : SyncState) :
    (applyEvent e s).pageViews = s.pageViews ∧
    (applyEvent e s).container = s.container ∧
    (applyEvent e s).mapperCalls = s.mapperCalls ∧
    (applyEvent e s).publishLog = s.publishLog ∧
    (applyEvent e s).scrollLog = s.scrollLog ∧
    (s.rafPending = true → (applyEvent e s).rafPending = true) := by
  rcases s with ⟨sel, pvs, cont, raf, hl, plog, mc, slog, elog⟩
  rcases e with c | _ | _ | _ | _ <;> cases sel <;> cases raf <;>
    refine ⟨?_, ?_, ?_, ?_, ?_, ?_⟩ <;>
      simp [applyEvent, scheduleRecompute]

/-- Extension of `applyEvent_preserves` to a whole within-frame event burst. -/
lemma applyEvents_preserves (evs : List Event) (s : SyncState) :
    (applyEvents evs s).pageViews = s.pageViews ∧
    (applyEvents evs s).container = s.container ∧
    (applyEvents evs s).mapperCalls = s.mapperCalls ∧
    (applyEvents evs s).publishLog = s.publishLog ∧
    (applyEvents evs s).scrollLog = s.scrollLog ∧
    (s.rafPending = true → (applyEvents evs s).rafPending = true) := by
  induction evs generalizing s with
  | nil => exact ⟨rfl, rfl, rfl, rfl, rfl, fun h => h⟩
  | cons e evs ih =>
    have h1 := applyEvent_preserves e s
    have h2 := ih (applyEvent e s)
    refine ⟨?_, ?_, ?_, ?_, ?_, ?_⟩
    · rw [applyEvents, List.foldl_cons, ← applyEvents, h2.1, h1.1]
    · rw [applyEvents, List.foldl_cons, ← applyEvents, h2.2.1, h1.2.1]
    · rw [applyEvents, List.foldl_cons, ← applyEvents, h2.2.2.1, h1.2.2.1]
    · rw [applyEvents, List.foldl_cons, ← applyEvents, h2.2.2.2.1, h1.2.2.2.1]
    · rw [applyEvents, List.foldl_cons, ← applyEvents, h2.2.2.2.2.1, h1.2.2.2.2.1]
    · intro h
      rw [applyEvents, List.foldl_cons, ← applyEvents]
      exact h2.2.2.2.2.2 (h1.2.2.2.2.2 h)

/-- Frame callback behavior for a null selection: publish the empty set and
return before the mapper or the centering scroll can run. -/
lemma rafCallback_none (s : SyncState) (h : s.latestSelected = none) :
    rafCallback s =
      { s with rafPending := false, highlights := [],
               publishLog := s.publishLog ++ [[]] } := by
  rcases s with ⟨sel, pvs, cont, raf, hl, plog, mc, slog, elog⟩
  cases h
  rfl

/-- Frame callback behavior for a live selection whose mapper call does not
throw: one mapper invocation, one publication of exactly the mapper's
result. -/
lemma rafCallback_some_ok (s : SyncState) (c : Chunk) (rects : List PixelRect)
    (hsel : s.latestSelected = some c)
    (hres : computeRectsFromChunk (some c) s.pageViews s.container = .ok rects) :
    (rafCallback s).mapperCalls = s.mapperCalls + 1 ∧
    (rafCallback s).publishLog = s.publishLog ++ [rects] ∧
    (rafCallback s).highlights = rects := by
  rcases s with ⟨sel, pvs, cont, raf, hl, plog, mc, slog, elog⟩
  cases hsel
  unfold rafCallback
  simp only
  rw [hres]
  rcases rects with _ | ⟨r, rs⟩
  · exact ⟨rfl, rfl, rfl⟩
  · simp only
    split <;> exact ⟨rfl, rfl, rfl⟩

/-- Running a frame with a queued callback runs exactly that callback. -/
lemma runFrame_pending (s : SyncState) (h : s.rafPending = true) :
    runFrame s = rafCallback s := by
  unfold runFrame
  rw [h]
  rfl

/-- Frame callback behavior when the mapper throws: the exception escapes
before `setHighlights`, so nothing is published and no scroll is issued. -/
lemma rafCallback_error (s : SyncState) (c : Chunk) (e : String)
    (hsel : s.latestSelected = some c)
    (hres : computeRectsFromChunk (some c) s.pageViews s.container = .error e) :
    (rafCallback s).publishLog = s.publishLog ∧
    (rafCallback s).highlights = s.highlights ∧
    (rafCallback s).scrollLog = s.scrollLog := by
  rcases s with ⟨sel, pvs, cont, raf, hl, plog, mc, slog, elog⟩
  cases hsel
  unfold rafCallback
  simp only
  rw [hres]
  exact ⟨rfl, rfl, rfl⟩

/-- Characterization of what one frame callback can publish: either nothing
(the mapper threw), or the empty set for a null current selection, or exactly
the mapper's output on the selection and live geometry current at execution
time. -/
lemma rafCallback_publish (s : SyncState) :
    (rafCallback s).publishLog = s.publishLog ∨
    ((rafCallback s).publishLog = s.publishLog ++ [[]] ∧
      s.latestSelected = none) ∨
    ∃ rects, (rafCallback s).publishLog = s.publishLog ++ [rects] ∧
      computeRectsFromChunk s.latestSelected s.pageViews s.container = .ok rects := by
  rcases hsel : s.latestSelected with _ | c
  · right; left
    rw [rafCallback_none s hsel]
    exact ⟨rfl, rfl⟩
  · rcases hres : computeRectsFromChunk (some c) s.pageViews s.container with e | rects
    · left
      exact (rafCallback_error s c e hsel hres).1
    · right; right
      exact ⟨rects, (rafCallback_some_ok s c rects hsel hres).2.1, rfl⟩

/-- Invariant propagation: if every published set so far has at most one
member, this stays true after any execution. -/
lemma run_publish_bounded (steps : List Step) (s : SyncState)
    (hs : ∀ l ∈ s.publishLog, l.length ≤ 1) :
    ∀ l ∈ (run steps s).publishLog, l.length ≤ 1 := by
  induction steps generalizing s with
  | nil => exact hs
  | cons st steps ih =>
    rw [run, List.foldl_cons, ← run]
    apply ih
    intro l hl
    rcases st with e | _
    · rw [show applyStep (.ev e) s = applyEvent e s from rfl,
        (applyEvent_preserves e s).2.2.2.1] at hl
      exact hs l hl
    · rw [show applyStep .frame s = runFrame s from rfl] at hl
      unfold runFrame at hl
      by_cases hp : s.rafPending
      · rw [if_pos hp] at hl
        rcases rafCallback_publish s with hcase | ⟨heq, _⟩ | ⟨rects, heq, hok⟩
        · rw [hcase] at hl
          exact hs l hl
        · rw [heq] at hl
          rcases List.mem_append.1 hl with h1 | h1
          · exact hs l h1
          · rw [List.mem_singleton.1 h1]
            simp
        · rw [heq] at hl
          rcases List.mem_append.1 hl with h1 | h1
          · exact hs l h1
          · rw [List.mem_singleton.1 h1]
            exact computeRects_ok_length _ _ _ _ hok
      · rw [if_neg hp] at hl
        exact hs l hl

/-- Expected rectangle of the spec scenario. -/
def rectC1 : PixelRect := ⟨"c1", 60, 160, 240, 320, 2⟩

/-- Second chunk used when two selections race within one frame. -/
def chunkAlt : Chunk := ⟨"c0", 1, (0.25, 0.25, 0.75, 0.75)⟩

/-- Concrete evaluation of the spec scenario, shared by several witnesses. -/
lemma computeRects_scenario :
    computeRectsFromChunk (some chunkC1) registry123 (some contA) =
      .ok [rectC1] := by
  simp [computeRectsFromChunk, registry123, chunkC1, page1El, page2El,
    page3El, contA, rectC1, List.find?]
  norm_num

/-! Claim theorems. -/

/-- C1. For every selected chunk whose page has an entry in the Page View
Registry, the Coordinate Mapper returns exactly one pixel rectangle with
`left = pageBox.left - viewportBox.left + x0 * pageBox.width`,
`top = pageBox.top - viewportBox.top + y0 * pageBox.height`,
`width = max(2, (x1 - x0) * pageBox.width)`,
`height = max(2, (y1 - y0) * pageBox.height)`; the width and height are
always at least 2, so a zero-area bbox is floored to 2 by 2. The witness
instantiates the spec scenario: registry pages 1..3, chunk
`{id: "c1", page: 2, bbox: (0.1, 0.2, 0.5, 0.6)}`, viewport origin at
page 2's top-left, page 2 at 600 by 800 px, giving
`{left: 60, top: 160, width: 240, height: 320, page: 2}`. -/
theorem computeRects_formula (c : Chunk) (pvs : List PageView)
    (cont : Container) (view : PageView)
    (hfind : pvs.find? (fun v => v.pageNumber == c.page) = some view) :
    computeRectsFromChunk (some c) pvs (some cont) =
      .ok [{ id := c.chunk_id
             left := view.el.rect.left - cont.rect.left +
               c.bbox_normalized.1 * view.el.rect.width
             top := view.el.rect.top - cont.rect.top +
               c.bbox_normalized.2.1 * view.el.rect.height
             width := max 2 ((c.bbox_normalized.2.2.1 - c.bbox_normalized.1) *
               view.el.rect.width)
             height := max 2 ((c.bbox_normalized.2.2.2 - c.bbox_normalized.2.1) *
               view.el.rect.height)
             page := c.page }] ∧
    (2 : ℚ) ≤ max 2 ((c.bbox_normalized.2.2.1 - c.bbox_normalized.1) *
      view.el.rect.width) ∧
    (2 : ℚ) ≤ max 2 ((c.bbox_normalized.2.2.2 - c.bbox_normalized.2.1) *
      view.el.rect.height) := by
  refine ⟨?_, le_max_left _ _, le_max_left _ _⟩
  have hne : ¬ pvs.length = 0 := by
    intro h0
    rw [List.length_eq_zero] at h0
    subst h0
    simp at hfind
  simp [computeRectsFromChunk, hne, hfind]

/-- Witness for C1: the spec scenario evaluates to the expected rectangle. -/
theorem computeRects_formula_witness :
    registry123.find? (fun v => v.pageNumber == chunkC1.page) =
      some ⟨2, page2El⟩ ∧
    computeRectsFromChunk (some chunkC1) registry123 (some contA) =
      .ok [⟨"c1", 60, 160, 240, 320, 2⟩] ∧
    computeRectsFromChunk
      (some ⟨"z", 2, (0.3, 0.3, 0.3, 0.3)⟩) registry123 (some contA) =
      .ok [⟨"z", 180, 240, 2, 2, 2⟩] := by
  refine ⟨rfl, ?_, ?_⟩
  · have h := (computeRects_formula chunkC1 registry123 contA ⟨2, page2El⟩ rfl).1
    rw [h]
    simp [chunkC1, page2El, contA]
    norm_num
  · have h := (computeRects_formula ⟨"z", 2, (0.3, 0.3, 0.3, 0.3)⟩
      registry123 contA ⟨2, page2El⟩ rfl).1
    rw [h]
    simp [page2El, contA]
    norm_num

/-- C5. For every selected chunk whose page number has no entry in the
Page View Registry, the Coordinate Mapper returns the empty rectangle set
and no error is raised (the result is `Except.ok [])`, not an exception). -/
theorem computeRects_missing_page (c : Chunk) (pvs : List PageView)
    (cont : Option Container)
    (hfind : pvs.find? (fun v => v.pageNumber == c.page) = none) :
    computeRectsFromChunk (some c) pvs cont = .ok [] := by
  by_cases h0 : pvs.length = 0
  · simp [computeRectsFromChunk, h0]
  · simp [computeRectsFromChunk, h0, hfind]

/-- Witness for C5: chunk referencing page 5 against the pages-1..3
registry yields the empty set. -/
theorem computeRects_missing_page_witness :
    registry123.find? (fun v => v.pageNumber == chunkPage5.page) = none ∧
    computeRectsFromChunk (some chunkPage5) registry123 (some contA) =
      .ok [] :=
  ⟨rfl, computeRects_missing_page chunkPage5 registry123 (some contA) rfl⟩

/-- C6 counterexample. The claim says no exception escapes the recompute
for ANY registry/container state. It is false: with a non-empty registry,
a selected chunk whose page is registered, and a null container handle
(the container element gone while a frame callback is still queued), the
source dereferences `containerRef.current` and throws a `TypeError`. -/
theorem computeRects_null_container_throws :
    computeRectsFromChunk (some chunkC1) registry123 none =
      .error "TypeError: containerRef.current is null" := rfl

/-- C6 amended. Whenever the selection is absent, the registry is empty
(in particular while the container has not yet mounted, since the registry
is only built after mount), or the selected chunk's page has no registry
entry, the recompute returns the empty rectangle set and no exception;
the no-throw guarantee does not extend to a null container handle combined
with a non-empty registry entry for the selected page. -/
theorem computeRects_guarded_cases :
    (∀ (pvs : List PageView) (cont : Option Container),
      computeRectsFromChunk none pvs cont = .ok []) ∧
    (∀ (ch : Option Chunk) (cont : Option Container),
      computeRectsFromChunk ch [] cont = .ok []) ∧
    (∀ (c : Chunk) (pvs : List PageView) (cont : Option Container),
      pvs.find? (fun v => v.pageNumber == c.page) = none →
      computeRectsFromChunk (some c) pvs cont = .ok []) := by
  refine ⟨fun pvs cont => rfl, fun ch cont => ?_, fun c pvs cont hfind => ?_⟩
  · cases ch <;> rfl
  · by_cases h0 : pvs.length = 0
    · simp [computeRectsFromChunk, h0]
    · simp [computeRectsFromChunk, h0, hfind]

/-- Witness for the amended C6 on concrete states, including the
empty-registry state that models the not-yet-mounted container. -/
theorem computeRects_guarded_cases_witness :
    computeRectsFromChunk none registry123 (some contA) = .ok [] ∧
    computeRectsFromChunk (some chunkC1) [] none = .ok [] ∧
    (registry123.find? (fun v => v.pageNumber == chunkPage5.page) = none ∧
      computeRectsFromChunk (some chunkPage5) registry123 none = .ok []) :=
  ⟨computeRects_guarded_cases.1 registry123 (some contA),
   computeRects_guarded_cases.2.1 (some chunkC1) none,
   rfl,
   computeRects_guarded_cases.2.2 chunkPage5 registry123 none rfl⟩

/-- C3 counterexample. The claim says a superseded load's result, when it
eventually arrives, produces no registry rebuild and no visible change.
It is false at concrete inputs on two paths: a superseded load whose
result is a failure still runs `setError`/`setLoading` — neither the
HEAD-check failure path nor the catch reads `cancelled` — and so paints a
visible error box over the new load's view; and a load superseded after
its document promise resolved but during the page-rendering loop still
rebuilds the registry and fires `onReady`, since `if (cancelled) return;`
is checked only once, before the loop's await points. -/
theorem superseded_load_observable_effects :
    renderErrorIndicatorSidebar
      (onLoadFailed true
        "PDF not found at /detailed_extraction_layer_report.pdf (status 404)"
        ⟨[], [], none, true⟩).1 =
      some "PDF not found at /detailed_extraction_layer_report.pdf (status 404)" ∧
    (onDocResolved false true [⟨1, page1El⟩] 1
      (initState [] none none)).1.pageViews = [⟨1, page1El⟩] ∧
    (onDocResolved false true [⟨1, page1El⟩] 1
      (initState [] none none)).2 = some 1 :=
  ⟨rfl, rfl, rfl⟩

/-- C3 amended. A load superseded before its document promise resolves has
its success continuation discarded by `if (cancelled) return;`: no registry
rebuild, no published-highlight change, no `onReady`. The discard is
incomplete, though: in the Sidebar.jsx variant a superseded load's failure
result still sets the error state and renders the visible error box, and
in both variants a supersession landing during the page-rendering loop's
awaits goes undetected — the flag is checked only once — so the superseded
load still rebuilds the registry and fires `onReady`. -/
theorem superseded_load_partial_discard (views : List PageView)
    (numPages : Nat) (s : SyncState) (err : String) (s2 : PaneState2) :
    onDocResolved true false views numPages s = (s, none) ∧
    onDocResolved true true views numPages s = (s, none) ∧
    (onLoadFailed true err s2).1.error = some err ∧
    renderErrorIndicatorSidebar (onLoadFailed true err s2).1 = some err ∧
    (onDocResolved false true views numPages s).1.pageViews = views ∧
    (onDocResolved false true views numPages s).2 = some numPages :=
  ⟨rfl, rfl, rfl, rfl, rfl, rfl⟩

/-- C8 counterexample. The claim says every load failure is surfaced as a
visible error indicator carrying the reason. In the PdfPane.jsx variant the
`catch` only logs to the console ("show nothing; let dev console show
errors") and the JSX renders no error element, so after a failure no
indicator is visible. -/
theorem load_failure_no_indicator_variant1 :
    renderErrorIndicatorPdfPane
      (handleLoadErrorPdfPane
        "PDF not found at /detailed_extraction_layer_report.pdf (status 404)"
        ⟨[], []⟩).1 = none := rfl

/-- C8 amended. On document load failure, the Sidebar.jsx PdfPane variant
surfaces a visible error indicator carrying the underlying reason, while
the PdfPane.jsx variant only logs to the console and shows no indicator;
in both variants the core does not retry the load and leaves the registry
unchanged, so after a failed first load no registry exists and the mapper
keeps returning the empty set until a load succeeds. -/
theorem load_failure_behavior (err : String) (s2 : PaneState2)
    (s1 : PaneState1) :
    renderErrorIndicatorSidebar (handleLoadErrorSidebar err s2).1 =
      some err ∧
    (handleLoadErrorSidebar err s2).1.pageViews = s2.pageViews ∧
    (handleLoadErrorSidebar err s2).2 = false ∧
    handleLoadErrorPdfPane err s1 = (s1, false) ∧
    (∀ (ch : Option Chunk) (cont : Option Container),
      computeRectsFromChunk ch [] cont = .ok []) :=
  ⟨rfl, rfl, rfl, rfl, fun ch cont => by cases ch <;> rfl⟩

/-- C2. For every sequence of at least one triggering event (selection
change, scroll, resize, mutation) arriving within one display frame while a
recompute is already queued, the next frame performs exactly one Coordinate
Mapper invocation and publishes exactly one new highlight state — not one
per event: `scheduleRecompute` returns early while `rafPending` is set, so
the burst folds into the single queued callback. -/
theorem coalesced_single_mapper_call (s : SyncState) (evs : List Event)
    (c : Chunk) (rects : List PixelRect)
    (hpend : s.rafPending = true)
    (hN : 1 ≤ evs.length)
    (hsel : (applyEvents evs s).latestSelected = some c)
    (hres : computeRectsFromChunk (some c) s.pageViews s.container =
      .ok rects) :
    (runFrame (applyEvents evs s)).mapperCalls = s.mapperCalls + 1 ∧
    (runFrame (applyEvents evs s)).publishLog = s.publishLog ++ [rects] := by
  obtain ⟨hpv, hcont, hmc, hpl, hsl, hpend2⟩ := applyEvents_preserves evs s
  rw [runFrame_pending _ (hpend2 hpend)]
  have hres2 : computeRectsFromChunk (some c) (applyEvents evs s).pageViews
      (applyEvents evs s).container = .ok rects := by
    rw [hpv, hcont]
    exact hres
  obtain ⟨h1, h2, h3⟩ := rafCallback_some_ok (applyEvents evs s) c rects hsel hres2
  exact ⟨by rw [h1, hmc], by rw [h2, hpl]⟩

/-- Witness for C2: three triggering events hit `pendingState` within one
frame; the frame performs one mapper call and one publication. -/
theorem coalesced_single_mapper_call_witness :
    pendingState.rafPending = true ∧
    1 ≤ ([.scroll, .resize, .mutation] : List Event).length ∧
    (applyEvents [.scroll, .resize, .mutation] pendingState).latestSelected =
      some chunkC1 ∧
    computeRectsFromChunk (some chunkC1) pendingState.pageViews
      pendingState.container = .ok [rectC1] ∧
    ((runFrame (applyEvents [.scroll, .resize, .mutation]
        pendingState)).mapperCalls = pendingState.mapperCalls + 1 ∧
     (runFrame (applyEvents [.scroll, .resize, .mutation]
        pendingState)).publishLog = pendingState.publishLog ++ [[rectC1]]) := by
  have hres : computeRectsFromChunk (some chunkC1) pendingState.pageViews
      pendingState.container = .ok [rectC1] := computeRects_scenario
  exact ⟨rfl, by decide, rfl, hres,
    coalesced_single_mapper_call pendingState [.scroll, .resize, .mutation]
      chunkC1 [rectC1] rfl (by decide) rfl hres⟩

/-- C4. If the selection changes twice within the same frame before the
coalesced recompute runs, the frame publishes exactly the second selection's
rectangle set; the first selection's set never appears among the
publications, because the deferred callback reads `latestSelected.current`
at execution time rather than capturing the selection at schedule time. -/
theorem latest_selection_wins (s : SyncState) (c1 c2 : Chunk)
    (rects2 : List PixelRect)
    (hres2 : computeRectsFromChunk (some c2) s.pageViews s.container =
      .ok rects2) :
    (runFrame (applyEvent (.select (some c2))
        (applyEvent (.select (some c1)) s))).publishLog =
      s.publishLog ++ [rects2] ∧
    (runFrame (applyEvent (.select (some c2))
        (applyEvent (.select (some c1)) s))).highlights = rects2 ∧
    (runFrame (applyEvent (.select (some c2))
        (applyEvent (.select (some c1)) s))).mapperCalls =
      s.mapperCalls + 1 ∧
    ∀ l ∈ (runFrame (applyEvent (.select (some c2))
        (applyEvent (.select (some c1)) s))).publishLog,
      l ∈ s.publishLog ∨ l = rects2 := by
  have hu : applyEvent (.select (some c2)) (applyEvent (.select (some c1)) s)
      = { s with latestSelected := some c2, rafPending := true } := by
    rcases s with ⟨sel, pvs, cont, raf, hl, plog, mc, slog, elog⟩
    cases raf <;> rfl
  rw [hu, runFrame_pending _ rfl]
  obtain ⟨h1, h2, h3⟩ := rafCallback_some_ok
    { s with latestSelected := some c2, rafPending := true } c2 rects2 rfl hres2
  refine ⟨h2, h3, h1, ?_⟩
  intro l hl
  rw [h2] at hl
  rcases List.mem_append.1 hl with h | h
  · exact Or.inl h
  · exact Or.inr (List.mem_singleton.1 h)

/-- Witness for C4: from an idle pane, selecting `chunkAlt` then `chunkC1`
in the same frame publishes only `chunkC1`'s rectangle. -/
theorem latest_selection_wins_witness :
    computeRectsFromChunk (some chunkC1)
      (initState registry123 (some contA) none).pageViews
      (initState registry123 (some contA) none).container = .ok [rectC1] ∧
    (runFrame (applyEvent (.select (some chunkC1))
        (applyEvent (.select (some chunkAlt))
          (initState registry123 (some contA) none)))).publishLog =
      (initState registry123 (some contA) none).publishLog ++ [[rectC1]] := by
  have hres : computeRectsFromChunk (some chunkC1)
      (initState registry123 (some contA) none).pageViews
      (initState registry123 (some contA) none).container = .ok [rectC1] :=
    computeRects_scenario
  exact ⟨hres,
    (latest_selection_wins (initState registry123 (some contA) none)
      chunkAlt chunkC1 [rectC1] hres).1⟩

/-- C7. Selecting no chunk schedules a recompute whose frame callback reads
the null selection, publishes the empty rectangle set, and returns before
the centering-scroll code: the published set is cleared within one
recomputation cycle and no scroll is issued during that cycle. -/
theorem null_selection_clears (s : SyncState) :
    (runFrame (applyEvent (.select none) s)).highlights = [] ∧
    (runFrame (applyEvent (.select none) s)).publishLog =
      s.publishLog ++ [[]] ∧
    (runFrame (applyEvent (.select none) s)).scrollLog = s.scrollLog := by
  have hu : applyEvent (.select none) s
      = { s with latestSelected := none, rafPending := true } := by
    rcases s with ⟨sel, pvs, cont, raf, hl, plog, mc, slog, elog⟩
    cases raf <;> rfl
  rw [hu, runFrame_pending _ rfl, rafCallback_none _ rfl]
  exact ⟨rfl, rfl, rfl⟩

/-- C9. In every reachable state the selection is a single nullable value
(an `Option` in the model, as in the source's single `selectedChunk` state),
and every published highlight set has 0 or 1 members; moreover each frame
publishes either nothing (mapper threw), or the empty set for a null
current selection, or exactly the mapper's output on the selection and
geometry current at execution time — never a stale rectangle. -/
theorem published_sets_small :
    (∀ (steps : List Step) (pvs : List PageView) (cont : Option Container)
        (sel : Option Chunk) (l : List PixelRect),
      l ∈ (run steps (initState pvs cont sel)).publishLog → l.length ≤ 1) ∧
    (∀ s : SyncState,
      (rafCallback s).publishLog = s.publishLog ∨
      ((rafCallback s).publishLog = s.publishLog ++ [[]] ∧
        s.latestSelected = none) ∨
      ∃ rects, (rafCallback s).publishLog = s.publishLog ++ [rects] ∧
        computeRectsFromChunk s.latestSelected s.pageViews s.container =
          .ok rects) := by
  constructor
  · intro steps pvs cont sel l hl
    refine run_publish_bounded steps (initState pvs cont sel) ?_ l hl
    intro l2 hl2
    simp [initState] at hl2
  · exact rafCallback_publish

/-- Witness for C9: a concrete two-step execution publishes `[]`, which has
at most one member. -/
theorem published_sets_small_witness :
    ([] : List PixelRect) ∈
      (run [.ev (.select none), .frame]
        (initState registry123 (some contA) none)).publishLog ∧
    ([] : List PixelRect).length ≤ 1 := by
  have hmem : ([] : List PixelRect) ∈
      (run [.ev (.select none), .frame]
        (initState registry123 (some contA) none)).publishLog := by
    show ([] : List PixelRect) ∈ [[]]
    simp
  exact ⟨hmem, published_sets_small.1 [.ev (.select none), .frame]
    registry123 (some contA) none [] hmem⟩

/-- C10. Whenever a settle publishes a non-empty rectangle set, the issued
centering-scroll target equals
`max(0, pageTop - containerClientHeight / 2 + pageClientHeight / 2)`: it is
never negative, and whenever the clamp is inactive the scrolled page's
vertical midpoint coincides with the viewport's vertical midpoint. -/
theorem centering_scroll_target (s : SyncState) (c : Chunk) (r : PixelRect)
    (rs : List PixelRect) (v : PageView) (cont : Container)
    (hsel : s.latestSelected = some c)
    (hres : computeRectsFromChunk (some c) s.pageViews s.container =
      .ok (r :: rs))
    (hfind : s.pageViews.find? (fun pv => pv.pageNumber == r.page) = some v)
    (hcont : s.container = some cont) :
    (rafCallback s).scrollLog = s.scrollLog ++
      [centerScroll v.el.offsetTop cont.clientHeight v.el.clientHeight] ∧
    0 ≤ centerScroll v.el.offsetTop cont.clientHeight v.el.clientHeight ∧
    (0 ≤ v.el.offsetTop - cont.clientHeight / 2 + v.el.clientHeight / 2 →
      v.el.offsetTop + v.el.clientHeight / 2 -
        centerScroll v.el.offsetTop cont.clientHeight v.el.clientHeight =
        cont.clientHeight / 2) := by
  refine ⟨?_, le_max_left 0 _, ?_⟩
  · rcases s with ⟨sel, pvs, scont, raf, hl, plog, mc, slog, elog⟩
    cases hsel
    cases hcont
    unfold rafCallback
    simp only
    rw [hres]
    simp only
    rw [hfind]
  · intro h
    unfold centerScroll
    rw [max_eq_right h]
    ring

/-- Witness for C10: settling on the spec scenario issues a scroll to
`max(0, 824 - 560/2 + 800/2) = 944`, which centers page 2. -/
theorem centering_scroll_target_witness :
    pendingState.latestSelected = some chunkC1 ∧
    computeRectsFromChunk (some chunkC1) pendingState.pageViews
      pendingState.container = .ok (rectC1 :: []) ∧
    pendingState.pageViews.find?
      (fun pv => pv.pageNumber == rectC1.page) = some ⟨2, page2El⟩ ∧
    pendingState.container = some contA ∧
    (rafCallback pendingState).scrollLog = pendingState.scrollLog ++
      [centerScroll (⟨2, page2El⟩ : PageView).el.offsetTop contA.clientHeight
        (⟨2, page2El⟩ : PageView).el.clientHeight] := by
  have hres : computeRectsFromChunk (some chunkC1) pendingState.pageViews
      pendingState.container = .ok (rectC1 :: []) := computeRects_scenario
  exact ⟨rfl, hres, rfl, rfl,
    (centering_scroll_target pendingState chunkC1 rectC1 [] ⟨2, page2El⟩
      contA rfl hres rfl rfl).1⟩

end PdfViewer
